import Mathlib

/-!
Verification of the JVMCI flag registry and consistency-validation mechanism
declared in `src/share/vm/jvmci/jvmci_globals.hpp`.

The header declares the flag table as declarative data (the `JVMCI_FLAGS`
macro) and the validator entry point `JVMCIGlobals::check_jvmci_flags_are_consistent`.
The bodies of the table machinery (register, resolve_defaults, apply_override,
get, for_each) and of the validator are not part of the given source; they are
modelled from the specification, as marked on each such definition.
-/

namespace JVMCI

/-- The value types exposed by the flag table: booleans and machine integers
(`bool` and `intx` in the source). -/
inductive FlagType
  | boolT
  | intT
deriving DecidableEq, Repr

/-- Flag categories, as in the `JVMCI_FLAGS` macro parameters: `product`,
`product_pd` (user-facing with a platform-supplied default), `develop`
and `notproduct`. -/
inductive Category
  | product
  | product_pd
  | develop
  | notproduct
deriving DecidableEq, Repr

/-- A live flag value: a boolean or an integer. -/
inductive FlagValue
  | VBool (b : Bool)
  | VInt (i : Int)
deriving DecidableEq, Repr

/-- The type of a value. -/
def FlagValue.typeOf : FlagValue → FlagType
  | .VBool _ => .boolT
  | .VInt _ => .intT

/-- A compiled-in default: a literal value, or a marker that the default is
supplied by the platform provider (the `_pd` categories). -/
inductive FlagDefault
  | lit (v : FlagValue)
  | pd
deriving DecidableEq, Repr

/-- One flag descriptor: stable name, declared type, category, default and
description, exactly the fields of one `JVMCI_FLAGS` entry. -/
structure FlagDescriptor where
  name : String
  type : FlagType
  category : Category
  dflt : FlagDefault
  description : String
deriving DecidableEq, Repr

/-- One table entry: a descriptor together with its current `FlagValue`. -/
structure FlagEntry where
  desc : FlagDescriptor
  value : FlagValue
deriving DecidableEq, Repr

/-- The flag table: an ordered collection of entries, in declaration order. -/
abbrev FlagTable := List FlagEntry

/-- The error kinds of the registry. -/
inductive FlagError
  | DuplicateFlagName
  | UnknownFlag
  | TypeMismatch
deriving DecidableEq, Repr

/-- The platform provider: word size in bytes and the per-platform defaults
for platform-dependent (`_pd`) flags (the per-architecture headers such as
`jvmci_globals_x86.hpp`, treated as an external collaborator). -/
structure Platform where
  wordSize : Nat
  pdInt : String → Int
  pdBool : String → Bool

/-- `K` as in the source default expression `(80*K)*wordSize`: 1024. -/
def K : Nat := 1024

/-- The `JVMCI_FLAGS` table of `jvmci_globals.hpp`, in declaration order,
parametrised by the target word size (used by the `JVMCINMethodSizeLimit`
default) and by whether the build includes the COMPILER2 compiler (the
`NOT_COMPILER2(...)` entries are present exactly when it does not). -/
def jvmciFlags (wordSize : Nat) (compiler2 : Bool) : List FlagDescriptor :=
  [ ⟨"EnableJVMCI", .boolT, .product, .lit (.VBool true),
      "Enable JVMCI"⟩,
    ⟨"UseJVMCICompiler", .boolT, .product, .lit (.VBool false),
      "Use JVMCI as the default compiler. Will be true by default if jvmci.Compiler property is set (either on command line or from contents of <java.home>/lib/jvmci/compiler-name"⟩,
    ⟨"JVMCIPrintProperties", .boolT, .product, .lit (.VBool false),
      "Prints properties used by the JVMCI compiler and exits"⟩,
    ⟨"UseJVMCIClassLoader", .boolT, .product, .lit (.VBool true),
      "Load JVMCI classes with separate class loader"⟩,
    ⟨"BootstrapJVMCI", .boolT, .product, .lit (.VBool false),
      "Bootstrap JVMCI before running Java main method"⟩,
    ⟨"PrintBootstrap", .boolT, .product, .lit (.VBool true),
      "Print JVMCI bootstrap progress and summary"⟩,
    ⟨"EagerJVMCI", .boolT, .product, .lit (.VBool false),
      "Force eager initialization of the JVMCI compiler"⟩,
    ⟨"JVMCIThreads", .intT, .product, .lit (.VInt 1),
      "Force number of JVMCI compiler threads to use"⟩,
    ⟨"JVMCIHostThreads", .intT, .product, .lit (.VInt 1),
      "Force number of compiler threads for JVMCI host compiler"⟩,
    ⟨"CodeInstallSafepointChecks", .boolT, .product, .lit (.VBool true),
      "Perform explicit safepoint checks while installing code"⟩ ]
  ++ (if compiler2 then []
      else
      [ ⟨"MaxVectorSize", .intT, .product_pd, .pd,
          "Max vector size in bytes, actual size could be less depending on elements type"⟩,
        ⟨"ReduceInitialCardMarks", .boolT, .product, .lit (.VBool true),
          "Defer write barriers of young objects"⟩ ])
  ++ [ ⟨"JVMCITraceLevel", .intT, .product, .lit (.VInt 0),
        "Trace level for JVMCI: 1 means emit a message for each CompilerToVM call, levels greater than 1 provide progressively greater detail"⟩,
      ⟨"JVMCICounterSize", .intT, .product, .lit (.VInt 0),
        "Reserved size for benchmark counters"⟩,
      ⟨"JVMCICountersExcludeCompiler", .boolT, .product, .lit (.VBool true),
        "Exclude JVMCI compiler threads from benchmark counters"⟩,
      ⟨"JVMCIUseFastLocking", .boolT, .develop, .lit (.VBool true),
        "Use fast inlined locking code"⟩,
      ⟨"JVMCINMethodSizeLimit", .intT, .product, .lit (.VInt ((80 * K) * wordSize)),
        "Maximum size of a compiled method."⟩,
      ⟨"MethodProfileWidth", .intT, .product, .lit (.VInt 0),
        "Number of methods to record in call profile"⟩,
      ⟨"TraceUncollectedSpeculations", .boolT, .develop, .lit (.VBool false),
        "Print message when a failed speculation was not collected"⟩ ]

/-- Modelled from the spec: `register(descriptor)` (source shows only the
declarative macro, not the registration machinery). Adds a descriptor at
table-definition time; fails with `DuplicateFlagName` if the name collides
with an already-registered one, regardless of category. -/
def register (ds : List FlagDescriptor) (d : FlagDescriptor) :
    Except FlagError (List FlagDescriptor) :=
  if ds.any (fun e => e.name == d.name) then .error .DuplicateFlagName
  else .ok (ds ++ [d])

/-- Modelled from the spec: the resolved initial value of one descriptor,
a platform-provider value for `_pd` defaults and the compiled-in literal
otherwise. -/
def resolveDefault (p : Platform) (d : FlagDescriptor) : FlagValue :=
  match d.dflt with
  | .lit v => v
  | .pd =>
    match d.type with
    | .intT => .VInt (p.pdInt d.name)
    | .boolT => .VBool (p.pdBool d.name)

/-- Modelled from the spec: `resolve_defaults(platform)` builds the table
binding every flag to its resolved default, before any override. -/
def resolve_defaults (ds : List FlagDescriptor) (p : Platform) : FlagTable :=
  ds.map (fun d => ⟨d, resolveDefault p d⟩)

/-- Modelled from the spec: coercion of an override value to the declared
type; only a value of the declared type coerces. -/
def coerce (t : FlagType) (v : FlagValue) : Option FlagValue :=
  if v.typeOf = t then some v else none

/-- Modelled from the spec: `apply_override(name, value)`. Looks up `name`;
yields `UnknownFlag` if absent and `TypeMismatch` if the value does not
coerce to the declared type, in both cases returning the table unchanged;
otherwise replaces the current `FlagValue`. -/
def apply_override : FlagTable → String → FlagValue → Option FlagError × FlagTable
  | [], _, _ => (some .UnknownFlag, [])
  | e :: es, n, v =>
    if e.desc.name = n then
      match coerce e.desc.type v with
      | some w => (none, ⟨e.desc, w⟩ :: es)
      | none => (some .TypeMismatch, e :: es)
    else
      let r := apply_override es n v
      (r.1, e :: r.2)

/-- Modelled from the spec: `get(name)`, a read-only lookup failing with
`UnknownFlag` when the name is absent. -/
def get (t : FlagTable) (n : String) : Except FlagError FlagValue :=
  match t.find? (fun e => e.desc.name == n) with
  | some e => .ok e.value
  | none => .error .UnknownFlag

/-- Modelled from the spec: `for_each()`, the finite enumeration of
`(name, category, type, value, description)` tuples in declaration order. -/
def for_each (t : FlagTable) :
    List (String × Category × FlagType × FlagValue × String) :=
  t.map (fun e => (e.desc.name, e.desc.category, e.desc.type, e.value, e.desc.description))

/-- The boolean value of a flag, `false` when absent or not a boolean. -/
def getBool (t : FlagTable) (n : String) : Bool :=
  match get t n with
  | .ok (.VBool b) => b
  | _ => false

/-- The integer value of a flag, `0` when absent or not an integer. -/
def getInt (t : FlagTable) (n : String) : Int :=
  match get t n with
  | .ok (.VInt i) => i
  | _ => 0

/-- A diagnostic naming one violated cross-flag rule. -/
inductive Diag
  | threadCount
  | sizeLimit (flag : String)
deriving DecidableEq, Repr

/-- Modelled from the spec: the thread-count rule is violated when the JVMCI
compiler feature is enabled while the JVMCI thread count is zero or
negative. -/
def threadCountViolated (t : FlagTable) : Bool :=
  getBool t "UseJVMCICompiler" && decide (getInt t "JVMCIThreads" ≤ 0)

/-- Modelled from the spec: the resource-bound rule for a size-limit flag is
violated when the flag's value is negative. -/
def sizeLimitViolated (t : FlagTable) (n : String) : Bool :=
  decide (getInt t n < 0)

/-- Modelled from the spec: the list of all violated rules, collected in one
pass over the table (no fail-fast). The body of
`JVMCIGlobals::check_jvmci_flags_are_consistent` is not in the given source;
the rules follow the specification's examples: the thread-count rule and the
non-negativity of the size-limit flags `JVMCINMethodSizeLimit` and
`JVMCICounterSize`. -/
def diagsOf (t : FlagTable) : List Diag :=
  (if threadCountViolated t then [Diag.threadCount] else [])
  ++ (if sizeLimitViolated t "JVMCINMethodSizeLimit" then
        [Diag.sizeLimit "JVMCINMethodSizeLimit"] else [])
  ++ (if sizeLimitViolated t "JVMCICounterSize" then
        [Diag.sizeLimit "JVMCICounterSize"] else [])

/-- The validator outcome: Valid, or Invalid with the aggregated diagnostics. -/
inductive VResult
  | Valid
  | Invalid (diags : List Diag)
deriving DecidableEq, Repr

/-- Modelled from the spec: `check_consistency()` returns Valid when no rule
is violated and otherwise a single aggregated failure carrying every
diagnostic. -/
def check_consistency (t : FlagTable) : VResult :=
  match diagsOf t with
  | [] => .Valid
  | ds => .Invalid ds

/-- Modelled from the spec: the validator run as a state-passing operation on
the table, pairing the outcome with the table it leaves behind; validation
reads the table and writes nothing. -/
def check_consistency_run (t : FlagTable) : VResult × FlagTable :=
  (check_consistency t, t)

/-- Names of a descriptor list. -/
def names (ds : List FlagDescriptor) : List String :=
  ds.map FlagDescriptor.name

/-- A well-formed table: names unique and every value of the declared type. -/
def WellFormed (t : FlagTable) : Prop :=
  (t.map (fun e => e.desc.name)).Nodup ∧ ∀ e ∈ t, e.value.typeOf = e.desc.type

/-- Serialization of a table: its `(name, value)` pairs, read off the
`for_each` enumeration. -/
def serialize (t : FlagTable) : List (String × FlagValue) :=
  (for_each t).map (fun q => (q.1, q.2.2.2.1))

/-- Re-application of serialized `(name, value)` pairs as overrides. -/
def applyAll (t : FlagTable) (ps : List (String × FlagValue)) : FlagTable :=
  ps.foldl (fun acc q => (apply_override acc q.1 q.2).2) t

end JVMCI

namespace JVMCI

/-- A concrete platform provider for witnesses: 8-byte words, every
platform-dependent integer default 64. -/
def examplePlatform : Platform := ⟨8, fun _ => 64, fun _ => false⟩

/-- The table of all resolved defaults on `examplePlatform`, non-COMPILER2. -/
def defaultTable : FlagTable := resolve_defaults (jvmciFlags 8 false) examplePlatform

/-- The table of the thread-count scenario: defaults, then
`UseJVMCICompiler := true` and `JVMCIThreads := 0`. -/
def scenarioThreads : FlagTable :=
  (apply_override (apply_override defaultTable "UseJVMCICompiler" (.VBool true)).2
    "JVMCIThreads" (.VInt 0)).2

/-- The two-violation scenario: the thread-count scenario plus
`JVMCINMethodSizeLimit := -1`. -/
def scenarioTwoViolations : FlagTable :=
  (apply_override scenarioThreads "JVMCINMethodSizeLimit" (.VInt (-1))).2

end JVMCI

namespace JVMCI

/-- Claim C1: with `EnableJVMCI = true`, `UseJVMCICompiler = true` and
`JVMCIThreads = 0`, `check_consistency` returns Invalid and its diagnostics
name the thread-count rule. -/
theorem c1_threadCount_scenario_invalid :
    getBool scenarioThreads "EnableJVMCI" = true
    ∧ getBool scenarioThreads "UseJVMCICompiler" = true
    ∧ getInt scenarioThreads "JVMCIThreads" = 0
    ∧ check_consistency scenarioThreads = .Invalid [Diag.threadCount] := by
  refine ⟨by decide, by decide, by decide, by decide⟩

end JVMCI

namespace JVMCI

/-- Claim C2: `check_consistency` aggregates: a diagnostic is in the output
exactly when its rule is violated, and with the thread-count rule and the
size-limit rule both violated the single Invalid result carries both
diagnostics. -/
theorem c2_aggregates_all_violations (t : FlagTable) :
    (Diag.threadCount ∈ diagsOf t ↔ threadCountViolated t = true)
    ∧ (Diag.sizeLimit "JVMCINMethodSizeLimit" ∈ diagsOf t
        ↔ sizeLimitViolated t "JVMCINMethodSizeLimit" = true)
    ∧ (Diag.sizeLimit "JVMCICounterSize" ∈ diagsOf t
        ↔ sizeLimitViolated t "JVMCICounterSize" = true)
    ∧ (threadCountViolated t = true →
        sizeLimitViolated t "JVMCINMethodSizeLimit" = true →
        check_consistency t = .Invalid (diagsOf t)
        ∧ Diag.threadCount ∈ diagsOf t
        ∧ Diag.sizeLimit "JVMCINMethodSizeLimit" ∈ diagsOf t) := by
  cases h1 : threadCountViolated t
  <;> cases h2 : sizeLimitViolated t "JVMCINMethodSizeLimit"
  <;> cases h3 : sizeLimitViolated t "JVMCICounterSize"
  <;> simp [diagsOf, check_consistency, h1, h2, h3]

/-- Witness for C2 at the concrete two-violation scenario. -/
theorem c2_aggregates_all_violations_witness :
    check_consistency scenarioTwoViolations = .Invalid (diagsOf scenarioTwoViolations)
    ∧ Diag.threadCount ∈ diagsOf scenarioTwoViolations
    ∧ Diag.sizeLimit "JVMCINMethodSizeLimit" ∈ diagsOf scenarioTwoViolations :=
  (c2_aggregates_all_violations scenarioTwoViolations).2.2.2 (by decide) (by decide)

/-- Claim C3: the validator run leaves the table unchanged, and running it
twice on the resulting state yields the identical outcome. -/
theorem c3_readonly_idempotent (t : FlagTable) :
    (check_consistency_run t).2 = t
    ∧ check_consistency_run ((check_consistency_run t).2) = check_consistency_run t :=
  ⟨rfl, rfl⟩

end JVMCI

namespace JVMCI

/-- Example descriptors for witnesses: two with the same name in different
categories and one with a fresh name. -/
def exDescBoolF : FlagDescriptor := ⟨"f", .boolT, .product, .lit (.VBool true), "a"⟩

/-- Example descriptor sharing the name of `exDescBoolF` in another category. -/
def exDescIntF : FlagDescriptor := ⟨"f", .intT, .develop, .lit (.VInt 0), "b"⟩

/-- Example descriptor with a fresh name. -/
def exDescIntG : FlagDescriptor := ⟨"g", .intT, .notproduct, .lit (.VInt 2), "c"⟩

/-- Claim C4: `register` fails with `DuplicateFlagName` exactly when the new
name collides with a registered one, whatever the two categories are, and a
successful `register` preserves uniqueness of names across the table. -/
theorem c4_register_duplicate_name (ds : List FlagDescriptor) (d : FlagDescriptor) :
    (register ds d = .error .DuplicateFlagName ↔ ∃ e ∈ ds, e.name = d.name)
    ∧ (∀ ds2, register ds d = .ok ds2 → (names ds).Nodup → (names ds2).Nodup) := by
  constructor
  · unfold register
    by_cases h : ds.any (fun e => e.name == d.name)
    · simp only [h, if_true]
      simp only [List.any_eq_true, beq_iff_eq] at h
      simpa using h
    · simp only [h, if_false]
      simp only [List.any_eq_true, beq_iff_eq] at h
      push_neg at h
      constructor
      · intro hc
        exact absurd hc (by simp)
      · intro ⟨e, he, hn⟩
        exact absurd hn (h e he)
  · intro ds2 hok hnd
    unfold register at hok
    by_cases h : ds.any (fun e => e.name == d.name)
    · simp [h] at hok
    · rw [if_neg h] at hok
      obtain rfl : ds ++ [d] = ds2 := by injection hok
      simp only [List.any_eq_true, beq_iff_eq] at h
      push_neg at h
      have : names (ds ++ [d]) = names ds ++ [d.name] := by simp [names]
      rw [this, List.nodup_append]
      refine ⟨hnd, List.nodup_singleton _, ?_⟩
      intro a ha hb
      simp only [List.mem_singleton] at hb
      subst hb
      simp only [names, List.mem_map] at ha
      obtain ⟨e, he, hn⟩ := ha
      exact h e he hn

/-- Witness for C4: a duplicate name across categories is rejected, and a
fresh-name registration keeps names unique. -/
theorem c4_register_duplicate_name_witness :
    register [exDescBoolF] exDescIntF = .error .DuplicateFlagName
    ∧ (names [exDescBoolF, exDescIntG]).Nodup :=
  ⟨(c4_register_duplicate_name [exDescBoolF] exDescIntF).1.mpr
      ⟨exDescBoolF, by simp, rfl⟩,
    (c4_register_duplicate_name [exDescBoolF] exDescIntG).2
      [exDescBoolF, exDescIntG] rfl (by decide)⟩

end JVMCI

namespace JVMCI

/-- Claim C5: overriding a name that no entry carries fails with
`UnknownFlag` and returns the table unchanged. -/
theorem c5_override_unknown_flag (t : FlagTable) (n : String) (v : FlagValue)
    (h : ∀ e ∈ t, e.desc.name ≠ n) :
    apply_override t n v = (some .UnknownFlag, t) := by
  induction t with
  | nil => rfl
  | cons e es ih =>
    have hne : e.desc.name ≠ n := h e (by simp)
    have hes : ∀ x ∈ es, x.desc.name ≠ n := fun x hx => h x (by simp [hx])
    simp [apply_override, hne, ih hes]

/-- Witness for C5 at the resolved default table and an absent name. -/
theorem c5_override_unknown_flag_witness :
    apply_override defaultTable "NoSuchFlag" (.VInt 1) = (some .UnknownFlag, defaultTable) :=
  c5_override_unknown_flag defaultTable "NoSuchFlag" (.VInt 1) (by decide)

/-- Claim C6: overriding a registered flag with a value that does not coerce
to its declared type fails with `TypeMismatch` and returns the table
unchanged, the prior value intact. -/
theorem c6_override_type_mismatch (t : FlagTable) (n : String) (v : FlagValue)
    (e : FlagEntry) (h1 : t.find? (fun x => x.desc.name == n) = some e)
    (h2 : v.typeOf ≠ e.desc.type) :
    apply_override t n v = (some .TypeMismatch, t) := by
  induction t with
  | nil => simp [List.find?] at h1
  | cons f es ih =>
    by_cases hf : f.desc.name = n
    · simp only [List.find?_cons, hf, beq_self_eq_true] at h1
      obtain rfl : f = e := by injection h1
      simp [apply_override, hf, coerce, h2]
    · have hb : (f.desc.name == n) = false := by simp [hf]
      simp only [List.find?_cons, hb] at h1
      simp [apply_override, hf, ih h1]

/-- Witness for C6: a boolean override of the integer flag `JVMCIThreads`. -/
theorem c6_override_type_mismatch_witness :
    apply_override defaultTable "JVMCIThreads" (.VBool true) = (some .TypeMismatch, defaultTable) :=
  c6_override_type_mismatch defaultTable "JVMCIThreads" (.VBool true)
    ⟨⟨"JVMCIThreads", .intT, .product, .lit (.VInt 1),
        "Force number of JVMCI compiler threads to use"⟩, .VInt 1⟩
    (by decide) (by decide)

end JVMCI

namespace JVMCI

/-- Lookup after `resolve_defaults` on a duplicate-free descriptor list finds
exactly the descriptor's own resolved default. -/
theorem get_resolve_defaults (ds : List FlagDescriptor) (p : Platform)
    (hnd : (names ds).Nodup) (d : FlagDescriptor) (hd : d ∈ ds) :
    get (resolve_defaults ds p) d.name = .ok (resolveDefault p d) := by
  induction ds with
  | nil => cases hd
  | cons f fs ih =>
    rcases List.mem_cons.mp hd with rfl | hmem
    · simp [get, resolve_defaults, List.find?_cons, beq_self_eq_true]
    · have hnd2 : (names fs).Nodup := by
        simpa [names] using (List.nodup_cons.mp (by simpa [names] using hnd)).2
      have hne : f.name ≠ d.name := by
        have hnotin : f.name ∉ names fs :=
          (List.nodup_cons.mp (by simpa [names] using hnd)).1
        intro heq
        exact hnotin (heq ▸ List.mem_map.mpr ⟨d, hmem, rfl⟩)
      have hb : (f.name == d.name) = false := by simp [hne]
      have := ih hnd2 hmem
      simpa [get, resolve_defaults, List.find?_cons, hb] using this

/-- Claim C7: after `resolve_defaults` with no override, `get` succeeds on
every registered name and returns the resolved default; on the concrete
`JVMCI_FLAGS` table this gives true for `EnableJVMCI`, false for
`UseJVMCICompiler`, 1 for `JVMCIThreads` and 0 for `JVMCICounterSize`,
whatever the word size, COMPILER2 setting and platform provider. -/
theorem c7_get_returns_resolved_default (ds : List FlagDescriptor) (p : Platform)
    (hnd : (names ds).Nodup) :
    (∀ d ∈ ds, get (resolve_defaults ds p) d.name = .ok (resolveDefault p d))
    ∧ (∀ (ws : Nat) (c2 : Bool) (q : Platform),
        get (resolve_defaults (jvmciFlags ws c2) q) "EnableJVMCI" = .ok (.VBool true)
        ∧ get (resolve_defaults (jvmciFlags ws c2) q) "UseJVMCICompiler" = .ok (.VBool false)
        ∧ get (resolve_defaults (jvmciFlags ws c2) q) "JVMCIThreads" = .ok (.VInt 1)
        ∧ get (resolve_defaults (jvmciFlags ws c2) q) "JVMCICounterSize" = .ok (.VInt 0)) := by
  constructor
  · intro d hd
    exact get_resolve_defaults ds p hnd d hd
  · intro ws c2 q
    cases c2 <;> exact ⟨rfl, rfl, rfl, rfl⟩

/-- Witness for C7 at the concrete table: the resolved default of
`EnableJVMCI` is read back by `get`. -/
theorem c7_get_returns_resolved_default_witness :
    get defaultTable "EnableJVMCI"
      = .ok (resolveDefault examplePlatform
          ⟨"EnableJVMCI", .boolT, .product, .lit (.VBool true), "Enable JVMCI"⟩) :=
  (c7_get_returns_resolved_default (jvmciFlags 8 false) examplePlatform (by decide)).1
    ⟨"EnableJVMCI", .boolT, .product, .lit (.VBool true), "Enable JVMCI"⟩ (by decide)

end JVMCI

namespace JVMCI

/-- Overriding an entry of a duplicate-free, type-correct table with its own
current value succeeds and leaves the table unchanged. -/
theorem apply_override_self (t : FlagTable)
    (hnd : (t.map (fun e => e.desc.name)).Nodup) (e : FlagEntry) (he : e ∈ t)
    (ht : e.value.typeOf = e.desc.type) :
    apply_override t e.desc.name e.value = (none, t) := by
  induction t with
  | nil => cases he
  | cons f fs ih =>
    rcases List.mem_cons.mp he with rfl | hmem
    · simp [apply_override, coerce, ht]
    · have hnd2 : (fs.map (fun x => x.desc.name)).Nodup :=
        (List.nodup_cons.mp hnd).2
      have hne : f.desc.name ≠ e.desc.name := by
        have hnotin := (List.nodup_cons.mp hnd).1
        intro heq
        apply hnotin
        show f.desc.name ∈ fs.map (fun x => x.desc.name)
        rw [heq]
        exact List.mem_map.mpr ⟨e, hmem, rfl⟩
      simp [apply_override, hne, ih hnd2 hmem]

/-- Folding overrides that each fix the table pointwise fixes the table. -/
theorem applyAll_fixed (t : FlagTable) (ps : List (String × FlagValue))
    (h : ∀ q ∈ ps, (apply_override t q.1 q.2).2 = t) :
    applyAll t ps = t := by
  induction ps with
  | nil => rfl
  | cons q qs ih =>
    have hq : (apply_override t q.1 q.2).2 = t := h q (by simp)
    have hqs : ∀ r ∈ qs, (apply_override t r.1 r.2).2 = t :=
      fun r hr => h r (by simp [hr])
    calc applyAll t (q :: qs)
        = applyAll ((apply_override t q.1 q.2).2) qs := rfl
      _ = applyAll t qs := by rw [hq]
      _ = t := ih hqs

/-- The serialization of a table is exactly its name-value pairs. -/
theorem serialize_eq (t : FlagTable) :
    serialize t = t.map (fun e => (e.desc.name, e.value)) := by
  simp [serialize, for_each]

/-- Claim C8: for every well-formed table, enumerating all descriptors,
serializing each name and value, and re-applying every pair as an override
reproduces the identical table. -/
theorem c8_serialize_reapply_roundtrip (t : FlagTable) (h : WellFormed t) :
    applyAll t (serialize t) = t := by
  obtain ⟨hnd, htypes⟩ := h
  apply applyAll_fixed
  intro q hq
  rw [serialize_eq] at hq
  obtain ⟨e, he, rfl⟩ := List.mem_map.mp hq
  rw [apply_override_self t hnd e he (htypes e he)]

/-- Witness for C8 at the concrete thread-count scenario table. -/
theorem c8_serialize_reapply_roundtrip_witness :
    applyAll scenarioThreads (serialize scenarioThreads) = scenarioThreads :=
  c8_serialize_reapply_roundtrip scenarioThreads ⟨by decide, by decide⟩

end JVMCI

namespace JVMCI

/-- Claim C9: `MaxVectorSize` and `ReduceInitialCardMarks` are in the flag
table exactly when the build excludes COMPILER2; in COMPILER2 builds `get`
fails on them with `UnknownFlag` like any unregistered name. -/
theorem c9_not_compiler2_gating (ws : Nat) (c2 : Bool) (p : Platform) :
    (("MaxVectorSize" ∈ names (jvmciFlags ws c2)) ↔ c2 = false)
    ∧ (("ReduceInitialCardMarks" ∈ names (jvmciFlags ws c2)) ↔ c2 = false)
    ∧ (c2 = true →
        get (resolve_defaults (jvmciFlags ws c2) p) "MaxVectorSize" = .error .UnknownFlag
        ∧ get (resolve_defaults (jvmciFlags ws c2) p) "ReduceInitialCardMarks"
            = .error .UnknownFlag) := by
  cases c2
  · refine ⟨?_, ?_, ?_⟩
    · simp [jvmciFlags, names]
    · simp [jvmciFlags, names]
    · intro h
      cases h
  · refine ⟨?_, ?_, ?_⟩
    · simp [jvmciFlags, names]
    · simp [jvmciFlags, names]
    · intro _
      exact ⟨rfl, rfl⟩

/-- Witness for C9 in a COMPILER2 build: `get` fails with `UnknownFlag` on
both gated names. -/
theorem c9_not_compiler2_gating_witness :
    get (resolve_defaults (jvmciFlags 8 true) examplePlatform) "MaxVectorSize"
      = .error .UnknownFlag
    ∧ get (resolve_defaults (jvmciFlags 8 true) examplePlatform) "ReduceInitialCardMarks"
      = .error .UnknownFlag :=
  (c9_not_compiler2_gating 8 true examplePlatform).2.2 rfl

/-- Claim C10: the compiled-in default of `JVMCINMethodSizeLimit` is
`(80*K)*wordSize = 81920 * wordSize`, strictly positive whenever the word
size is, and the descriptor's category is plain `product`. -/
theorem c10_nmethod_size_limit_default (ws : Nat) (c2 : Bool) (h : 0 < ws) :
    (80 * K) * ws = 81920 * ws
    ∧ (jvmciFlags ws c2).find? (fun d => d.name == "JVMCINMethodSizeLimit")
        = some ⟨"JVMCINMethodSizeLimit", .intT, .product,
            .lit (.VInt (81920 * ws)), "Maximum size of a compiled method."⟩
    ∧ (0 : Int) < ((81920 * ws : Nat) : Int) := by
  refine ⟨by norm_num [K], ?_, by exact_mod_cast Nat.mul_pos (by norm_num) h⟩
  cases c2 <;> rfl

/-- Witness for C10 at word size 8 in a non-COMPILER2 build. -/
theorem c10_nmethod_size_limit_default_witness :
    (80 * K) * 8 = 81920 * 8
    ∧ (jvmciFlags 8 false).find? (fun d => d.name == "JVMCINMethodSizeLimit")
        = some ⟨"JVMCINMethodSizeLimit", .intT, .product,
            .lit (.VInt (81920 * 8)), "Maximum size of a compiled method."⟩
    ∧ (0 : Int) < ((81920 * 8 : Nat) : Int) :=
  c10_nmethod_size_limit_default 8 false (by decide)

end JVMCI
